import Mathlib

/-!
# Verification of the geo-tracer-mapper core (NetworkMap.tsx)

A shallow embedding of the hop-sequence orchestration / map-overlay
synchronization engine of `src/components/NetworkMap.tsx`:

* the `NetworkHop` record and the mocked hop data source `mockTraceroute`;
* the map overlay operations used by the component (`addSource`, `addLayer`,
  markers, `fitBounds`, and the removals used by `clearNetworkPath`),
  modelled on an explicit `MapState` with mapbox-gl's exception behaviour
  made explicit (`addSource`/`addLayer` throw on a duplicate id, `fitBounds`
  throws on empty bounds); an operation returns the state reached together
  with `Option MapErr` (`some e` = a thrown exception; mutations made before
  the throw remain, as in JavaScript);
* `addNetworkPath` and `clearNetworkPath`;
* the async `executeTraceroute` both as a linear event trace
  (`executeTracerouteEvents`, for single-session properties) and as a list
  of atomic callback segments (`Seg`, for interleaved-session properties:
  the code awaits a 1000 ms timer between hop reveals, so each segment is
  the synchronous code run by one timer callback);
* the idle-rotation camera loop `rotateCamera`.  The loop is a closure
  created inside `initializeMap`; it captures the `isTracing` value of the
  render in which `initializeMap` ran (a React `useState` value is a
  constant within its render), so the guard it evaluates on every tick is
  that captured constant, not the live state.  The embedding makes the
  captured value an explicit parameter.

Coordinates and latencies are embedded as rationals.
-/

/-- The `NetworkHop` interface (NetworkMap.tsx lines 9-18). -/
structure NetworkHop where
  id : Int
  ip : String
  hostname : String
  latitude : ℚ
  longitude : ℚ
  latency : ℚ
  country : String
  city : String
deriving DecidableEq, Repr

/-- `mockTraceroute` (lines 33-38): the mocked hop data source; only the last
hop's hostname depends on the target. -/
def mockTraceroute (target : String) : List NetworkHop :=
  [ { id := 1, ip := "192.168.1.1", hostname := "local-gateway",
      latitude := 40.7128, longitude := -74.0060, latency := 1.2,
      country := "USA", city := "New York" },
    { id := 2, ip := "10.0.0.1", hostname := "isp-router-1",
      latitude := 40.7589, longitude := -73.9851, latency := 12.5,
      country := "USA", city := "New York" },
    { id := 3, ip := "72.14.215.85", hostname := "google-edge",
      latitude := 37.4419, longitude := -122.1430, latency := 45.3,
      country := "USA", city := "Palo Alto" },
    { id := 4, ip := "142.250.191.14", hostname := target,
      latitude := 37.4419, longitude := -122.1430, latency := 47.8,
      country := "USA", city := "Palo Alto" } ]

/-- The latency colour of the marker popup (line 140):
`hop.latency < 20 ? '#00ff00' : hop.latency < 100 ? '#ffff00' : '#ff0040'`. -/
def popupLatencyColor (latency : ℚ) : String :=
  if latency < 20 then "#00ff00" else if latency < 100 then "#ffff00" else "#ff0040"

/-- `getLatencyColor` (lines 217-221), the detail-panel latency class. -/
def getLatencyColor (latency : ℚ) : String :=
  if latency < 20 then "text-latency-good"
  else if latency < 100 then "text-latency-warning"
  else "text-latency-error"

/-- The marker background colour chosen at line 125:
`index === 0 ? '#00ff00' : index === hopData.length - 1 ? '#ff0040' : '#00ffff'`
(`n` is `hopData.length`, `idx` the marker's list index). -/
def markerColor (n idx : Nat) : String :=
  if idx = 0 then "#00ff00" else if idx = n - 1 then "#ff0040" else "#00ffff"

/-- One `mapboxgl.Marker` with its popup content, as built at lines 118-146:
a DOM element of class `hop-marker` whose background encodes the hop role,
placed at the hop's (longitude, latitude), with a popup showing the hop's
id, hostname, ip, city/country and colour-banded latency. -/
structure Marker where
  lngLat : ℚ × ℚ
  background : String
  popupHopId : Int
  popupHostname : String
  popupIp : String
  popupCity : String
  popupCountry : String
  popupLatency : ℚ
  popupColor : String
deriving DecidableEq, Repr

/-- The marker built for `hop` at list index `idx` of a hop list of length `n`. -/
def hopMarker (n idx : Nat) (hop : NetworkHop) : Marker :=
  { lngLat := (hop.longitude, hop.latitude)
  , background := markerColor n idx
  , popupHopId := hop.id
  , popupHostname := hop.hostname
  , popupIp := hop.ip
  , popupCity := hop.city
  , popupCountry := hop.country
  , popupLatency := hop.latency
  , popupColor := popupLatencyColor hop.latency }

/-- The overlay-relevant state of the mapbox map: geojson line sources by id,
layer ids, the `hop-marker` DOM elements, and the `fitBounds` commands issued
(coordinate list and padding). -/
structure MapState where
  sources : List (String × List (ℚ × ℚ))
  layers : List String
  markers : List Marker
  fitBoundsCalls : List (List (ℚ × ℚ) × ℚ)
deriving DecidableEq, Repr

/-- The map state right after `initializeMap`: no overlay primitives. -/
def initialMapState : MapState :=
  { sources := [], layers := [], markers := [], fitBoundsCalls := [] }

/-- Exceptions thrown by the mapbox-gl primitives the component calls:
`addSource`/`addLayer` throw on a duplicate id; `fitBounds` on an empty
`LngLatBounds` throws (its south-west corner is undefined). -/
inductive MapErr where
  | duplicateSource (id : String)
  | duplicateLayer (id : String)
  | emptyBounds
deriving DecidableEq, Repr

/-- Result of a map operation: the state reached, and `some e` when the
operation threw `e` part-way (earlier mutations remain, as in JavaScript). -/
abbrev MapResult := MapState × Option MapErr

/-- Sequencing that models JavaScript control flow: once an exception has
been thrown, the rest of the statement list does not run. -/
def seqOp (r : MapResult) (f : MapState → MapResult) : MapResult :=
  match r with
  | (s, none) => f s
  | (s, some e) => (s, some e)

/-- `map.addSource(id, geojson)`: throws if a source with this id exists. -/
def addSource (id : String) (coords : List (ℚ × ℚ)) (s : MapState) : MapResult :=
  if s.sources.any (fun p => p.1 = id) then (s, some (MapErr.duplicateSource id))
  else ({ s with sources := s.sources ++ [(id, coords)] }, none)

/-- `map.addLayer({id, ...})`: throws if a layer with this id exists. -/
def addLayer (id : String) (s : MapState) : MapResult :=
  if s.layers.any (fun l => l = id) then (s, some (MapErr.duplicateLayer id))
  else ({ s with layers := s.layers ++ [id] }, none)

/-- The `hopData.forEach((hop, index) => ...)` marker loop (lines 118-146):
builds one marker per hop, indices in list order. -/
def buildMarkers (n : Nat) : Nat → List NetworkHop → List Marker
  | _, [] => []
  | idx, h :: t => hopMarker n idx h :: buildMarkers n (idx + 1) t

/-- `map.fitBounds(bounds, {padding})` where `bounds` was built by extending
an empty `LngLatBounds` with each coordinate: with no coordinates the bounds
are empty and the call throws; otherwise the fit command is issued. -/
def fitBounds (coords : List (ℚ × ℚ)) (padding : ℚ) (s : MapState) : MapResult :=
  if coords = [] then (s, some MapErr.emptyBounds)
  else ({ s with fitBoundsCalls := s.fitBoundsCalls ++ [(coords, padding)] }, none)

/-- `addNetworkPath` (lines 82-152), for a present map handle: build the
coordinate list, add the `network-path` geojson source, add the
`network-path-line` layer, add one marker per hop, then fit the bounds with
padding 100.  No clearing happens here. -/
def addNetworkPath (hopData : List NetworkHop) (s : MapState) : MapResult :=
  let coordinates := hopData.map (fun hop => (hop.longitude, hop.latitude))
  seqOp (addSource "network-path" coordinates s) (fun s1 =>
    seqOp (addLayer "network-path-line" s1) (fun s2 =>
      fitBounds coordinates 100
        { s2 with markers := s2.markers ++ buildMarkers hopData.length 0 hopData }))

/-- `clearNetworkPath` (lines 154-168), for a present map handle: remove the
`network-path-line` layer if present, remove the `network-path` source if
present, and remove every element of class `hop-marker`.  Never throws. -/
def clearNetworkPath (s : MapState) : MapState :=
  let s1 :=
    if s.layers.any (fun l => l = "network-path-line")
    then { s with layers := s.layers.filter (fun l => l ≠ "network-path-line") }
    else s
  let s2 :=
    if s1.sources.any (fun p => p.1 = "network-path")
    then { s1 with sources := s1.sources.filter (fun p => p.1 ≠ "network-path") }
    else s1
  { s2 with markers := [] }

/-- The overlay primitives of a map state — the drawn objects (sources,
layers, markers), as opposed to the camera-command log. -/
def overlayPrimitives (s : MapState) :
    List (String × List (ℚ × ℚ)) × List String × List Marker :=
  (s.sources, s.layers, s.markers)

/-- The spec's `redraw`: what `executeTraceroute` actually does to the
overlay, `clearNetworkPath()` followed by `addNetworkPath(hops)` (lines 181
and 197).  The state component is kept even when the draw step threw. -/
def clearThenAdd (hopData : List NetworkHop) (s : MapState) : MapResult :=
  addNetworkPath hopData (clearNetworkPath s)

/-! ## `executeTraceroute` as a linear event trace

For single-session properties (pacing, ordering, the not-ready guard) the
async function is modelled as the sequence of observable events it performs
in program order.  The reveal `for` loop (lines 192-195) awaits a 1000 ms
timer and then appends the next hop, for each hop in order.  The fetched
hop list is a parameter (`fetched`); in the component it is always
`mockTraceroute target`. -/

/-- An observable event of `executeTraceroute`. -/
inductive Ev where
  | setTracing (b : Bool)
  | clearPath
  | toast (title : String)
  | fetchHops (target : String)
  | publishHops (hops : List NetworkHop)
  | delay (ms : Nat)
  | appendHop (h : NetworkHop)
  | invokeOverlay (hops : List NetworkHop)
deriving DecidableEq, Repr

/-- The reveal `for` loop (lines 192-195): for each hop in order, a 1000 ms
timer await, then the append. -/
def revealLoop : List NetworkHop → List Ev
  | [] => []
  | h :: t => Ev.delay 1000 :: Ev.appendHop h :: revealLoop t

/-- `executeTraceroute` (lines 170-205) as its event trace.  `mapReady` is
whether `map.current` is non-null; `fetched` is the hop list produced by the
data source (`mockTraceroute target` in the component). -/
def executeTracerouteEvents (target : String) (mapReady : Bool)
    (fetched : List NetworkHop) : List Ev :=
  if mapReady = false then [Ev.toast "Map not ready"]
  else
    [Ev.setTracing true, Ev.clearPath, Ev.toast "Tracing route...",
     Ev.fetchHops target, Ev.publishHops []]
    ++ revealLoop fetched
    ++ [Ev.invokeOverlay fetched, Ev.publishHops fetched,
        Ev.setTracing false, Ev.toast "Traceroute complete"]

/-- Component state observed through the events (trace-session status, the
accumulated hop list, and logs of fetches, overlay invocations, toasts). -/
structure EvState where
  isTracing : Bool
  hops : List NetworkHop
  fetches : List String
  overlayInvocations : List (List NetworkHop)
  toasts : List String
deriving DecidableEq, Repr

/-- Effect of one event on the observed component state. -/
def applyEv (s : EvState) : Ev → EvState
  | Ev.setTracing b => { s with isTracing := b }
  | Ev.clearPath => s
  | Ev.toast t => { s with toasts := s.toasts ++ [t] }
  | Ev.fetchHops t => { s with fetches := s.fetches ++ [t] }
  | Ev.publishHops h => { s with hops := h }
  | Ev.delay _ => s
  | Ev.appendHop h => { s with hops := s.hops ++ [h] }
  | Ev.invokeOverlay h => { s with overlayInvocations := s.overlayInvocations ++ [h] }

/-- Run an event trace from a state. -/
def runEvents (s : EvState) (evs : List Ev) : EvState :=
  evs.foldl applyEv s

/-- `true` iff the event is an `appendHop`. -/
def isAppend : Ev → Bool
  | Ev.appendHop _ => true
  | _ => false

/-- The hops appended by a trace, in order. -/
def appendedHops : List Ev → List NetworkHop
  | [] => []
  | Ev.appendHop h :: rest => h :: appendedHops rest
  | _ :: rest => appendedHops rest

/-- `true` iff every `appendHop` in the trace is immediately preceded by a
`delay 1000` event (so each append, the first included, is paced). -/
def pacedAppends : List Ev → Bool
  | [] => true
  | Ev.appendHop _ :: _ => false
  | Ev.delay 1000 :: Ev.appendHop _ :: rest => pacedAppends rest
  | _ :: rest => pacedAppends rest

/-! ## Interleaved trace sessions

`executeTraceroute` is async: it awaits a 1000 ms timer before each append.
Each session therefore runs as a sequence of atomic callback segments on the
single JS thread: the synchronous prologue, one segment per non-final timer
callback (one append), and the final timer callback (last append, then
`addNetworkPath`, `setHops(mockHops)`, `setIsTracing(false)`, completion
toast — all synchronous; if `addNetworkPath` throws, the statements after it
do not run).  Two overlapping sessions interleave their segments in timer
order.  There is no generation guard in the code. -/

/-- Component-level state shared by all sessions: the map handle (with its
overlay state), the trace-session status flag, the accumulated hop list,
and the toast log. -/
structure AppState where
  map : Option MapState
  isTracing : Bool
  hops : List NetworkHop
  toasts : List String
deriving DecidableEq, Repr

/-- One atomic callback segment of a session whose fetched hop list is
`mock`.  `startSeg` is the synchronous prologue (lines 170-191); a
non-final timer callback runs `appendSeg` (line 194); the final timer
callback runs `finishSeg` (lines 194-204 for the last index). -/
inductive Seg where
  | startSeg (target : String) (mock : List NetworkHop)
  | appendSeg (h : NetworkHop)
  | finishSeg (lastHop : NetworkHop) (mock : List NetworkHop)
deriving DecidableEq, Repr

/-- Effect of one callback segment on the shared component state. -/
def applySeg (st : AppState) : Seg → AppState
  | Seg.startSeg _ _ =>
    match st.map with
    | none => { st with toasts := st.toasts ++ ["Map not ready"] }
    | some m =>
      { st with isTracing := true
              , map := some (clearNetworkPath m)
              , toasts := st.toasts ++ ["Tracing route..."]
              , hops := [] }
  | Seg.appendSeg h => { st with hops := st.hops ++ [h] }
  | Seg.finishSeg h mock =>
    let st1 := { st with hops := st.hops ++ [h] }
    match st1.map with
    | none => st1
    | some m =>
      match addNetworkPath mock m with
      | (m2, none) =>
        { st1 with map := some m2
                 , hops := mock
                 , isTracing := false
                 , toasts := st1.toasts ++ ["Traceroute complete"] }
      | (m2, some _) => { st1 with map := some m2 }

/-- Run an interleaved schedule of callback segments. -/
def runSegs (st : AppState) (segs : List Seg) : AppState :=
  segs.foldl applySeg st

/-- The callback segments of one session over hop list `mock`, in their
own order (an overlapping second session interleaves with these). -/
def sessionSegs (target : String) (mock : List NetworkHop) : List Seg :=
  match mock.getLast? with
  | none => [Seg.startSeg target mock]
  | some last =>
    Seg.startSeg target mock ::
      (mock.dropLast.map Seg.appendSeg ++ [Seg.finishSeg last mock])

/-! ## The camera controller

`rotateCamera` (lines 71-79) is created and first invoked inside
`initializeMap`.  Each tick checks `!map.current || isTracing`; on pass it
advances the centre longitude by 0.1, eases, and reschedules itself via
`requestAnimationFrame`.  `isTracing` here is the `useState` value captured
by the closure when `initializeMap` ran — a constant, not the live state —
and `initializeMap` can only run while no trace is active (tracing requires
`map.current`), so the captured value is `false`.  Nothing else in the
component ever invokes `rotateCamera` again, so once a tick declines to
reschedule the loop is never restarted. -/

/-- One `rotateCamera` tick: `none` means the guard returned (no ease, no
reschedule); `some lng` means the camera eased to the advanced longitude
and the next tick was scheduled. -/
def rotateCameraTick (capturedIsTracing : Bool) (mapPresent : Bool) (lng : ℚ) :
    Option ℚ :=
  if mapPresent = false ∨ capturedIsTracing = true then none
  else some (lng + 1 / 10)

/-- An event of the camera/trace world: an animation-frame tick arriving, a
trace entering in-progress, or a trace completing. -/
inductive CamEvent where
  | tick
  | traceStart
  | traceComplete
deriving DecidableEq, Repr

/-- Camera-world state: centre longitude, the live `isTracing` state, whether
a next tick is scheduled, and how many ticks have run. -/
structure CamState where
  lng : ℚ
  liveIsTracing : Bool
  loopActive : Bool
  ticksRun : Nat
deriving DecidableEq, Repr

/-- The camera state right after `initializeMap`: centre `[0, 20]`, no trace
active, the rotation loop started. -/
def camInit : CamState :=
  { lng := 0, liveIsTracing := false, loopActive := true, ticksRun := 0 }

/-- One camera-world step.  A tick arrives only if one is scheduled; it runs
the `rotateCamera` closure, whose guard reads the captured flag.  Trace
start/completion only flip the live state — the code gives them no way to
stop or restart the loop directly. -/
def camStep (capturedIsTracing mapPresent : Bool) (s : CamState) :
    CamEvent → CamState
  | CamEvent.tick =>
    if s.loopActive then
      match rotateCameraTick capturedIsTracing mapPresent s.lng with
      | none => { s with loopActive := false, ticksRun := s.ticksRun + 1 }
      | some l => { s with lng := l, ticksRun := s.ticksRun + 1 }
    else s
  | CamEvent.traceStart => { s with liveIsTracing := true }
  | CamEvent.traceComplete => { s with liveIsTracing := false }

/-- Run a sequence of camera-world events. -/
def camRun (capturedIsTracing mapPresent : Bool) (s : CamState)
    (evs : List CamEvent) : CamState :=
  evs.foldl (camStep capturedIsTracing mapPresent) s

/-- Number of tick events in a camera-world schedule. -/
def tickCount (evs : List CamEvent) : Nat :=
  evs.countP (fun e => e = CamEvent.tick)

/-! ## A concrete pair of overlapping sessions

Session A traces `site-a.com` starting at t = 0 ms; session B traces
`site-b.com` starting at t = 500 ms, while A is still in-progress.  A's
timer callbacks fire at 1000·k ms and B's at 500 + 1000·k ms, so on the
single JS thread the callback segments strictly alternate A, B, A, B, …
starting with A's prologue. -/

/-- Strict alternation of two sessions' callback segments, first list first. -/
def interleaveSegs : List Seg → List Seg → List Seg
  | [], ys => ys
  | x :: xs, [] => x :: xs
  | x :: xs, y :: ys => x :: y :: interleaveSegs xs ys

/-- Session A's fetched hop list. -/
def hopsA : List NetworkHop := mockTraceroute "site-a.com"

/-- Session B's fetched hop list. -/
def hopsB : List NetworkHop := mockTraceroute "site-b.com"

/-- The timer-order schedule of the two overlapping sessions. -/
def overlapSchedule : List Seg :=
  interleaveSegs (sessionSegs "site-a.com" hopsA) (sessionSegs "site-b.com" hopsB)

/-- Component state after `initializeMap`, before any trace. -/
def initApp : AppState :=
  { map := some initialMapState, isTracing := false, hops := [], toasts := [] }

/-- The hostnames shown by the popups of the markers currently drawn on the
map (empty when no map handle exists). -/
def overlayHostnames (st : AppState) : List String :=
  match st.map with
  | none => []
  | some m => m.markers.map (fun mk => mk.popupHostname)

/-! ## Theorems -/

/-- C5: the latency text colour band is chosen by half-open intervals, in
both the marker popup (line 140) and the detail-panel class
(`getLatencyColor`, lines 217-221): `[0, 20)` maps to the good colour,
`[20, 100)` to the warning colour, `[100, ∞)` to the error colour; in
particular 19.9 is good, 20.0 warning, 99.9 warning, 100.0 error. -/
theorem latency_banding (l : ℚ) :
    ((0 ≤ l ∧ l < 20) →
      getLatencyColor l = "text-latency-good" ∧ popupLatencyColor l = "#00ff00")
    ∧ ((20 ≤ l ∧ l < 100) →
      getLatencyColor l = "text-latency-warning" ∧ popupLatencyColor l = "#ffff00")
    ∧ (100 ≤ l →
      getLatencyColor l = "text-latency-error" ∧ popupLatencyColor l = "#ff0040")
    ∧ (∀ n idx hop, (hopMarker n idx hop).popupColor = popupLatencyColor hop.latency)
    ∧ (getLatencyColor (199 / 10) = "text-latency-good"
       ∧ getLatencyColor 20 = "text-latency-warning"
       ∧ getLatencyColor (999 / 10) = "text-latency-warning"
       ∧ getLatencyColor 100 = "text-latency-error")
    ∧ (popupLatencyColor (199 / 10) = "#00ff00"
       ∧ popupLatencyColor 20 = "#ffff00"
       ∧ popupLatencyColor (999 / 10) = "#ffff00"
       ∧ popupLatencyColor 100 = "#ff0040") := by
  refine ⟨?_, ?_, ?_, fun n idx hop => rfl, ?_, ?_⟩
  · rintro ⟨-, h20⟩
    simp [getLatencyColor, popupLatencyColor, h20]
  · rintro ⟨h20, h100⟩
    have h : ¬ l < 20 := by linarith
    simp [getLatencyColor, popupLatencyColor, h, h100]
  · intro h100
    have h : ¬ l < 20 := by linarith
    have h' : ¬ l < 100 := by linarith
    simp [getLatencyColor, popupLatencyColor, h, h']
  · norm_num [getLatencyColor]
  · norm_num [popupLatencyColor]

/-- C5 witness: the good band at latency 19.9. -/
theorem latency_banding_witness :
    ((0 : ℚ) ≤ 199 / 10 ∧ (199 / 10 : ℚ) < 20)
    ∧ getLatencyColor (199 / 10) = "text-latency-good"
    ∧ popupLatencyColor (199 / 10) = "#00ff00" :=
  ⟨⟨by norm_num, by norm_num⟩, (latency_banding (199 / 10)).1 ⟨by norm_num, by norm_num⟩⟩

/-- C9: a trace requested while `map.current` is null is rejected: the event
trace of `executeTraceroute` is exactly the "Map not ready" toast, and
running it changes nothing in the component state but the toast log — the
tracing flag, the hop list, the fetch log and the overlay-invocation log are
untouched. -/
theorem trace_rejected_when_map_missing (target : String)
    (fetched : List NetworkHop) (s : EvState) :
    executeTracerouteEvents target false fetched = [Ev.toast "Map not ready"]
    ∧ runEvents s (executeTracerouteEvents target false fetched)
      = { s with toasts := s.toasts ++ ["Map not ready"] } :=
  ⟨rfl, rfl⟩

/-- C10: a single-hop redraw gives its one marker the origin colour
`#00ff00`, not the destination colour `#ff0040`: in `markerColor` the
`index === 0` branch is evaluated before the `index === length - 1` branch. -/
theorem single_hop_origin_style (h : NetworkHop) :
    (addNetworkPath [h] initialMapState).1.markers.map (fun m => m.background)
      = ["#00ff00"]
    ∧ markerColor 1 0 = "#00ff00"
    ∧ "#00ff00" ≠ "#ff0040" :=
  ⟨rfl, rfl, by decide⟩

/-- C2: `addNetworkPath []` on a fresh map does not skip drawing: it adds
the empty `network-path` source and the `network-path-line` layer (and no
markers), and then throws from `fitBounds` on the empty bounds, instead of
creating nothing, skipping the bounds-fit, and raising no error. -/
theorem empty_redraw_draws_and_throws :
    (addNetworkPath [] initialMapState).1.layers = ["network-path-line"]
    ∧ (addNetworkPath [] initialMapState).1.sources = [("network-path", [])]
    ∧ (addNetworkPath [] initialMapState).1.markers = []
    ∧ (addNetworkPath [] initialMapState).2 = some MapErr.emptyBounds :=
  ⟨rfl, rfl, rfl, rfl⟩

/-- C4: with a trace in-progress (live `isTracing` true) the next
animation-frame tick of `rotateCamera` still runs, advances the longitude
by 0.1 and reschedules itself: the guard reads the `isTracing` value the
closure captured when `initializeMap` ran (`false` — tracing requires an
initialized map), not the live state, so the idle rotation never suspends. -/
theorem rotation_ticks_during_trace :
    (camRun false true camInit [CamEvent.traceStart, CamEvent.tick]).liveIsTracing = true
    ∧ (camRun false true camInit [CamEvent.traceStart, CamEvent.tick]).ticksRun = 1
    ∧ (camRun false true camInit [CamEvent.traceStart, CamEvent.tick]).lng = 1 / 10
    ∧ (camRun false true camInit [CamEvent.traceStart, CamEvent.tick]).loopActive
      = true := by
  refine ⟨rfl, rfl, ?_, rfl⟩
  norm_num [camRun, camStep, camInit, rotateCameraTick]

/-! ### Helper lemmas -/

/-- The marker loop builds one marker per hop. -/
theorem buildMarkers_length (n : Nat) (idx : Nat) (H : List NetworkHop) :
    (buildMarkers n idx H).length = H.length := by
  induction H generalizing idx with
  | nil => rfl
  | cons h t ih => simp [buildMarkers, ih]

/-- The marker at position `j` of the marker loop's output is the marker of
the hop at position `j`, built with running index `idx + j`. -/
theorem buildMarkers_get? (n : Nat) (idx j : Nat) (H : List NetworkHop) :
    (buildMarkers n idx H).get? j = (H.get? j).map (hopMarker n (idx + j)) := by
  induction H generalizing idx j with
  | nil => simp [buildMarkers]
  | cons h t ih =>
    cases j with
    | zero => simp [buildMarkers]
    | succ j =>
      simp only [buildMarkers, List.get?_cons_succ, ih]
      have : idx + 1 + j = idx + (j + 1) := by omega
      rw [this]

/-- `clearNetworkPath` leaves the sources filtered of `network-path`. -/
theorem clear_sources (s : MapState) :
    (clearNetworkPath s).sources
      = s.sources.filter (fun p => p.1 ≠ "network-path") := by
  unfold clearNetworkPath
  by_cases h2 : s.sources.any (fun p => p.1 = "network-path") = true
  · by_cases h1 : s.layers.any (fun l => l = "network-path-line") = true <;>
      simp [h1, h2]
  · rw [Bool.not_eq_true] at h2
    have hself : List.filter (fun p => !decide (p.1 = "network-path")) s.sources
        = s.sources := by
      apply List.filter_eq_self.mpr
      intro p hp
      have := List.any_eq_false.mp h2 p hp
      simpa using this
    by_cases h1 : s.layers.any (fun l => l = "network-path-line") = true <;>
      simp [h1, h2, hself]

/-- `clearNetworkPath` leaves the layers filtered of `network-path-line`. -/
theorem clear_layers (s : MapState) :
    (clearNetworkPath s).layers
      = s.layers.filter (fun l => l ≠ "network-path-line") := by
  unfold clearNetworkPath
  by_cases h1 : s.layers.any (fun l => l = "network-path-line") = true
  · by_cases h2 : s.sources.any (fun p => p.1 = "network-path") = true <;>
      simp [h1, h2]
  · rw [Bool.not_eq_true] at h1
    have hself : List.filter (fun l => !decide (l = "network-path-line")) s.layers
        = s.layers := by
      apply List.filter_eq_self.mpr
      intro l hl
      have := List.any_eq_false.mp h1 l hl
      simpa using this
    by_cases h2 : s.sources.any (fun p => p.1 = "network-path") = true <;>
      simp [h1, h2, hself]

/-- `clearNetworkPath` removes every `hop-marker` element. -/
theorem clear_markers (s : MapState) : (clearNetworkPath s).markers = [] := by
  unfold clearNetworkPath
  by_cases h1 : s.layers.any (fun l => l = "network-path-line") = true <;>
    by_cases h2 : s.sources.any (fun p => p.1 = "network-path") = true <;>
    simp [h1, h2]

/-- `clearNetworkPath` issues no camera command. -/
theorem clear_fitBoundsCalls (s : MapState) :
    (clearNetworkPath s).fitBoundsCalls = s.fitBoundsCalls := by
  unfold clearNetworkPath
  by_cases h1 : s.layers.any (fun l => l = "network-path-line") = true <;>
    by_cases h2 : s.sources.any (fun p => p.1 = "network-path") = true <;>
    simp [h1, h2]

/-- After a clear, no `network-path` source remains. -/
theorem clear_no_source (s : MapState) :
    (clearNetworkPath s).sources.any (fun p => p.1 = "network-path") = false := by
  rw [clear_sources, List.any_eq_false]
  intro p hp
  have := List.of_mem_filter hp
  simpa using this

/-- After a clear, no `network-path-line` layer remains. -/
theorem clear_no_layer (s : MapState) :
    (clearNetworkPath s).layers.any (fun l => l = "network-path-line") = false := by
  rw [clear_layers, List.any_eq_false]
  intro l hl
  have := List.of_mem_filter hl
  simpa using this

/-- Running `addNetworkPath` on a state with no `network-path` source and no
`network-path-line` layer: the source, the layer and one marker per hop are
appended; with at least one hop the bounds-fit is issued, with zero hops
`fitBounds` throws on the empty bounds. -/
theorem addNetworkPath_fresh (H : List NetworkHop) (s : MapState)
    (hsrc : s.sources.any (fun p => p.1 = "network-path") = false)
    (hlay : s.layers.any (fun l => l = "network-path-line") = false) :
    addNetworkPath H s =
      ({ sources := s.sources
            ++ [("network-path", H.map (fun h => (h.longitude, h.latitude)))]
       , layers := s.layers ++ ["network-path-line"]
       , markers := s.markers ++ buildMarkers H.length 0 H
       , fitBoundsCalls := s.fitBoundsCalls ++
           (if H = [] then []
            else [(H.map (fun h => (h.longitude, h.latitude)), 100)]) },
       if H = [] then some MapErr.emptyBounds else none) := by
  by_cases hH : H = []
  · subst hH
    simp [addNetworkPath, addSource, addLayer, fitBounds, seqOp, hsrc, hlay,
      buildMarkers]
  · have hc : H.map (fun h => (h.longitude, h.latitude)) ≠ [] := by
      simpa using hH
    simp [addNetworkPath, addSource, addLayer, fitBounds, seqOp, hsrc, hlay,
      hH, hc]

/-- The sources after a clear-then-draw. -/
theorem clearThenAdd_sources (H : List NetworkHop) (s : MapState) :
    (clearThenAdd H s).1.sources
      = s.sources.filter (fun p => p.1 ≠ "network-path")
        ++ [("network-path", H.map (fun h => (h.longitude, h.latitude)))] := by
  unfold clearThenAdd
  rw [addNetworkPath_fresh H (clearNetworkPath s) (clear_no_source s)
    (clear_no_layer s)]
  simp [clear_sources]

/-- The layers after a clear-then-draw. -/
theorem clearThenAdd_layers (H : List NetworkHop) (s : MapState) :
    (clearThenAdd H s).1.layers
      = s.layers.filter (fun l => l ≠ "network-path-line")
        ++ ["network-path-line"] := by
  unfold clearThenAdd
  rw [addNetworkPath_fresh H (clearNetworkPath s) (clear_no_source s)
    (clear_no_layer s)]
  simp [clear_layers]

/-- The markers after a clear-then-draw. -/
theorem clearThenAdd_markers (H : List NetworkHop) (s : MapState) :
    (clearThenAdd H s).1.markers = buildMarkers H.length 0 H := by
  unfold clearThenAdd
  rw [addNetworkPath_fresh H (clearNetworkPath s) (clear_no_source s)
    (clear_no_layer s)]
  simp [clear_markers]

/-- Whatever the starting state, after `addNetworkPath` a `network-path`
source is present (either it was already there — in which case `addSource`
threw and changed nothing — or it was just added). -/
theorem addNetworkPath_has_source (H : List NetworkHop) (s : MapState) :
    (addNetworkPath H s).1.sources.any (fun p => p.1 = "network-path")
      = true := by
  by_cases h1 : s.sources.any (fun p => p.1 = "network-path") = true
  · simp [addNetworkPath, addSource, seqOp, h1]
  · rw [Bool.not_eq_true] at h1
    by_cases h2 : s.layers.any (fun l => l = "network-path-line") = true
    · simp [addNetworkPath, addSource, addLayer, seqOp, h1, h2, List.any_append]
    · rw [Bool.not_eq_true] at h2
      by_cases hH : H.map (fun h => (h.longitude, h.latitude)) = [] <;>
        simp [addNetworkPath, addSource, addLayer, fitBounds, seqOp, h1, h2, hH,
          List.any_append]

/-- On a state that already has a `network-path` source, `addNetworkPath`
throws `duplicateSource` at its first statement and changes nothing. -/
theorem addNetworkPath_dup (H : List NetworkHop) (r : MapState)
    (h : r.sources.any (fun p => p.1 = "network-path") = true) :
    addNetworkPath H r = (r, some (MapErr.duplicateSource "network-path")) := by
  simp [addNetworkPath, addSource, seqOp, h]

/-- C1 (amended): `addNetworkPath` performs no clear, so a second invocation
with the same hops throws a duplicate-source error at `addSource` before
adding anything — the overlay primitives stay those of the single invocation
only because the redraw aborts.  The spec's clear-before-draw idempotence
holds for what `executeTraceroute` actually composes, `clearNetworkPath`
followed by `addNetworkPath`: its overlay primitives after two runs equal
those after one. -/
theorem redraw_idempotent_only_with_clear (H : List NetworkHop) (s : MapState) :
    (addNetworkPath H (addNetworkPath H s).1).2
      = some (MapErr.duplicateSource "network-path")
    ∧ (addNetworkPath H (addNetworkPath H s).1).1 = (addNetworkPath H s).1
    ∧ overlayPrimitives (clearThenAdd H (clearThenAdd H s).1).1
      = overlayPrimitives (clearThenAdd H s).1 := by
  have hd := addNetworkPath_dup H (addNetworkPath H s).1
    (addNetworkPath_has_source H s)
  refine ⟨by rw [hd], by rw [hd], ?_⟩
  · unfold overlayPrimitives
    rw [clearThenAdd_sources, clearThenAdd_sources, clearThenAdd_layers,
      clearThenAdd_layers, clearThenAdd_markers, clearThenAdd_markers]
    simp [List.filter_append, List.filter_filter]

/-- C1 counterexample: on a fresh map and the mocked 4-hop list, the first
`addNetworkPath` succeeds, the second one throws `duplicateSource` — so the
operation does not perform a full clear before drawing (a clear would have
removed the `network-path` source, as the non-throwing clear-then-draw
composition shows). -/
theorem redraw_twice_no_clear_cex :
    (addNetworkPath (mockTraceroute "google.com") initialMapState).2 = none
    ∧ (addNetworkPath (mockTraceroute "google.com")
        (addNetworkPath (mockTraceroute "google.com") initialMapState).1).2
      = some (MapErr.duplicateSource "network-path")
    ∧ (clearThenAdd (mockTraceroute "google.com")
        (addNetworkPath (mockTraceroute "google.com") initialMapState).1).2
      = none :=
  ⟨rfl, rfl, rfl⟩

/-- C7: from a state carrying no `network-path` source and no
`network-path-line` layer (the state `clearNetworkPath` establishes),
`addNetworkPath H` places exactly `length H` markers, and the line
geometry's vertex sequence is exactly the hops' (longitude, latitude)
pairs in hop order. -/
theorem redraw_counts (H : List NetworkHop) (s : MapState)
    (hsrc : s.sources.any (fun p => p.1 = "network-path") = false)
    (hlay : s.layers.any (fun l => l = "network-path-line") = false) :
    (addNetworkPath H s).1.markers.length = s.markers.length + H.length
    ∧ (addNetworkPath H s).1.sources
      = s.sources ++ [("network-path", H.map (fun h => (h.longitude, h.latitude)))]
    ∧ (addNetworkPath H s).1.layers = s.layers ++ ["network-path-line"] := by
  rw [addNetworkPath_fresh H s hsrc hlay]
  refine ⟨?_, rfl, rfl⟩
  simp [buildMarkers_length]

/-- C7 witness: the mocked 4-hop list on a fresh map. -/
theorem redraw_counts_witness :
    initialMapState.sources.any (fun p => p.1 = "network-path") = false
    ∧ initialMapState.layers.any (fun l => l = "network-path-line") = false
    ∧ (addNetworkPath (mockTraceroute "google.com") initialMapState).1.markers.length
      = initialMapState.markers.length + (mockTraceroute "google.com").length :=
  ⟨rfl, rfl, (redraw_counts (mockTraceroute "google.com") initialMapState rfl rfl).1⟩

/-- C6 counterexample: for the single-hop list (the 4-hop mock truncated to
its first hop) the marker at index `length - 1 = 0` has the origin colour
`#00ff00`, not the destination colour `#ff0040`: with one hop the claim's
"index 0 is origin-styled and index length-1 is destination-styled" fails,
because `markerColor` tests `index === 0` first. -/
theorem single_hop_not_destination_cex :
    (addNetworkPath ((mockTraceroute "google.com").take 1) initialMapState).1.markers.map
      (fun m => m.background) = ["#00ff00"]
    ∧ ((mockTraceroute "google.com").take 1).length - 1 = 0
    ∧ "#00ff00" ≠ "#ff0040" :=
  ⟨rfl, rfl, by decide⟩

/-- C6 (amended): drawing a non-empty hop list from a cleared state, the
marker at index 0 gets the origin colour; when the list has at least two
hops, the marker at the last index gets the destination colour and every
marker at an intermediate index gets the relay colour; a single-hop list
gets the origin colour on its only marker (the index-0 test wins). -/
theorem marker_roles (H : List NetworkHop) (s : MapState)
    (hsrc : s.sources.any (fun p => p.1 = "network-path") = false)
    (hlay : s.layers.any (fun l => l = "network-path-line") = false)
    (hm : s.markers = [])
    (h1 : 1 ≤ H.length) :
    ((addNetworkPath H s).1.markers.map (fun m => m.background)).get? 0
      = some "#00ff00"
    ∧ (2 ≤ H.length →
        ((addNetworkPath H s).1.markers.map (fun m => m.background)).get?
          (H.length - 1) = some "#ff0040")
    ∧ (∀ i, 0 < i → i + 1 < H.length →
        ((addNetworkPath H s).1.markers.map (fun m => m.background)).get? i
          = some "#00ffff") := by
  have hmk : (addNetworkPath H s).1.markers = buildMarkers H.length 0 H := by
    rw [addNetworkPath_fresh H s hsrc hlay, hm]
    rfl
  rw [hmk]
  refine ⟨?_, ?_, ?_⟩
  · rw [List.get?_map, buildMarkers_get?]
    rw [List.get?_eq_get (by omega : 0 < H.length)]
    simp [hopMarker, markerColor]
  · intro h2
    rw [List.get?_map, buildMarkers_get?]
    rw [List.get?_eq_get (by omega : H.length - 1 < H.length)]
    simp only [Option.map_some', hopMarker, markerColor, Nat.zero_add]
    rw [if_neg (by omega : ¬ (H.length - 1 = 0))]
    simp
  · intro i hi hilt
    rw [List.get?_map, buildMarkers_get?]
    rw [List.get?_eq_get (by omega : i < H.length)]
    simp only [Option.map_some', hopMarker, markerColor, Nat.zero_add]
    rw [if_neg (by omega : ¬ (i = 0)), if_neg (by omega : ¬ (i = H.length - 1))]

/-- C6 witness: the mocked 4-hop list on a fresh map — origin colour at
index 0, destination colour at index 3. -/
theorem marker_roles_witness :
    initialMapState.sources.any (fun p => p.1 = "network-path") = false
    ∧ initialMapState.layers.any (fun l => l = "network-path-line") = false
    ∧ initialMapState.markers = []
    ∧ 1 ≤ (mockTraceroute "google.com").length
    ∧ 2 ≤ (mockTraceroute "google.com").length
    ∧ ((addNetworkPath (mockTraceroute "google.com") initialMapState).1.markers.map
        (fun m => m.background)).get? 0 = some "#00ff00"
    ∧ ((addNetworkPath (mockTraceroute "google.com") initialMapState).1.markers.map
        (fun m => m.background)).get? ((mockTraceroute "google.com").length - 1)
      = some "#ff0040" :=
  ⟨rfl, rfl, rfl, by norm_num [mockTraceroute], by norm_num [mockTraceroute],
    (marker_roles (mockTraceroute "google.com") initialMapState rfl rfl rfl
      (by norm_num [mockTraceroute])).1,
    (marker_roles (mockTraceroute "google.com") initialMapState rfl rfl rfl
      (by norm_num [mockTraceroute])).2.1 (by norm_num [mockTraceroute])⟩

/-- The hops appended by the reveal loop, in order, are exactly the hop list. -/
theorem appendedHops_revealLoop (H : List NetworkHop) (rest : List Ev) :
    appendedHops (revealLoop H ++ rest) = H ++ appendedHops rest := by
  induction H with
  | nil => simp [revealLoop]
  | cons h t ih => simp [revealLoop, appendedHops, ih]

/-- In the reveal loop every append is immediately preceded by its 1000 ms
delay. -/
theorem pacedAppends_revealLoop (H : List NetworkHop) (rest : List Ev) :
    pacedAppends (revealLoop H ++ rest) = pacedAppends rest := by
  induction H with
  | nil => simp [revealLoop]
  | cons h t ih => simp [revealLoop, pacedAppends, ih]

/-- The reveal loop emits only delays and appends. -/
theorem revealLoop_events (H : List NetworkHop) (e : Ev)
    (he : e ∈ revealLoop H) :
    e = Ev.delay 1000 ∨ ∃ h, e = Ev.appendHop h := by
  induction H with
  | nil => simp [revealLoop] at he
  | cons h t ih =>
    simp only [revealLoop, List.mem_cons] at he
    rcases he with h1 | h2 | h3
    · exact Or.inl h1
    · exact Or.inr ⟨h, h2⟩
    · exact ih h3

/-- C8: for a trace run on a ready map with a non-empty fetched hop list,
the event trace appends the hops one at a time in sequence order
(`appendedHops` of the whole trace is the hop list), every append — the
first included — is immediately preceded by a 1000 ms delay, and the trace
ends with the overlay invocation carrying the full hop list, the publication
of the full list, and only then `setTracing false`: no overlay invocation
and no `setTracing false` occurs anywhere earlier. -/
theorem reveal_pacing_and_completion (target : String) (H : List NetworkHop)
    (hH : H ≠ []) :
    executeTracerouteEvents target true H
      = ([Ev.setTracing true, Ev.clearPath, Ev.toast "Tracing route...",
          Ev.fetchHops target, Ev.publishHops []] ++ revealLoop H)
        ++ [Ev.invokeOverlay H, Ev.publishHops H, Ev.setTracing false,
            Ev.toast "Traceroute complete"]
    ∧ appendedHops (executeTracerouteEvents target true H) = H
    ∧ pacedAppends (executeTracerouteEvents target true H) = true
    ∧ (∀ L, Ev.invokeOverlay L ∉
        [Ev.setTracing true, Ev.clearPath, Ev.toast "Tracing route...",
         Ev.fetchHops target, Ev.publishHops []] ++ revealLoop H)
    ∧ Ev.setTracing false ∉
        [Ev.setTracing true, Ev.clearPath, Ev.toast "Tracing route...",
         Ev.fetchHops target, Ev.publishHops []] ++ revealLoop H := by
  refine ⟨?_, ?_, ?_, ?_, ?_⟩
  · simp [executeTracerouteEvents]
  · simp [executeTracerouteEvents, appendedHops, appendedHops_revealLoop]
  · simp [executeTracerouteEvents, pacedAppends, pacedAppends_revealLoop]
  · intro L hL
    rcases List.mem_append.mp hL with hin | hin
    · simp at hin
    · rcases revealLoop_events H _ hin with h | ⟨h', hh⟩ <;> simp_all
  · intro hL
    rcases List.mem_append.mp hL with hin | hin
    · simp at hin
    · rcases revealLoop_events H _ hin with h | ⟨h', hh⟩ <;> simp_all

/-- C8 witness: the mocked 4-hop trace to google.com. -/
theorem reveal_pacing_and_completion_witness :
    mockTraceroute "google.com" ≠ []
    ∧ appendedHops (executeTracerouteEvents "google.com" true
        (mockTraceroute "google.com")) = mockTraceroute "google.com"
    ∧ pacedAppends (executeTracerouteEvents "google.com" true
        (mockTraceroute "google.com")) = true :=
  ⟨by simp [mockTraceroute],
    (reveal_pacing_and_completion "google.com" (mockTraceroute "google.com")
      (by simp [mockTraceroute])).2.1,
    (reveal_pacing_and_completion "google.com" (mockTraceroute "google.com")
      (by simp [mockTraceroute])).2.2.1⟩

/-- C3 counterexample: in the timer-order interleaving of session A
(`site-a.com`, started first) and session B (`site-b.com`, started 500 ms
later while A is in-progress), the final overlay's marker popups carry A's
hostnames, ending in `site-a.com` — not B's list, which ends in
`site-b.com`.  Moreover A's first reveal callback — the third segment, which
runs after B's prologue — mutates the shared hop list (it grows from empty
to one hop), so A's pending reveals do apply after B starts. -/
theorem overlapping_traces_cex :
    overlayHostnames (runSegs initApp overlapSchedule)
      = ["local-gateway", "isp-router-1", "google-edge", "site-a.com"]
    ∧ hopsB.map (fun h => h.hostname)
      = ["local-gateway", "isp-router-1", "google-edge", "site-b.com"]
    ∧ (["local-gateway", "isp-router-1", "google-edge", "site-a.com"] : List String)
      ≠ ["local-gateway", "isp-router-1", "google-edge", "site-b.com"]
    ∧ (runSegs initApp (overlapSchedule.take 3)).hops.map (fun h => h.hostname)
      = ["local-gateway"]
    ∧ (runSegs initApp (overlapSchedule.take 2)).hops = [] :=
  ⟨rfl, rfl, by decide, rfl, rfl⟩

/-- C3 (amended): with no generation guard in `executeTraceroute`, the
overlapping sessions interleave: A's reveal callbacks keep appending to the
shared hop list after B starts, A's completion callback redraws the overlay
with A's full hop list and sets the session complete, and B's completion
callback then appends its last hop and throws `duplicateSource` inside
`addNetworkPath`, so B's redraw, publication and completion toast never
apply — the final overlay reflects A's hops, the final hop list is A's list
with B's last hop appended, and only one completion toast is emitted. -/
theorem overlapping_traces_last_writer :
    overlayHostnames (runSegs initApp overlapSchedule)
      = hopsA.map (fun h => h.hostname)
    ∧ (runSegs initApp overlapSchedule).hops.map (fun h => h.hostname)
      = hopsA.map (fun h => h.hostname) ++ ["site-b.com"]
    ∧ (runSegs initApp overlapSchedule).isTracing = false
    ∧ (runSegs initApp overlapSchedule).toasts
      = ["Tracing route...", "Tracing route...", "Traceroute complete"] :=
  ⟨rfl, rfl, rfl, rfl⟩
